import Mathlib

/-!
Shallow embedding of the course-creation workflow core
(validation agents, HITL review nodes, routing functions, and the
content/quiz generation stages) together with proofs about the
properties claimed in the specification.

Python dictionaries are embedded as Lean structures; keys read through
`dict.get(key, default)` become `Option` fields read through `getD`;
Python truthiness of strings and lists (empty means false) is made
explicit; float arithmetic on quality scores is embedded as exact
rational arithmetic on `ℚ`.
-/

/-- Python truthiness of an optional string: `None` and `""` are falsy. -/
def truthyStr (o : Option String) : Bool :=
  match o with
  | none => false
  | some t => !(t == "")

/-- Python substring test `needle in haystack` (for non-empty needles). -/
def strContains (haystack needle : String) : Bool :=
  (haystack.splitOn needle).length > 1

/-- Embeds the `quiz_plan` dict of a module: `{"graded": n, "practice": m}`. -/
structure QuizPlan where
  graded : Nat
  practice : Nat
deriving Repr, DecidableEq

/-- Embeds a lesson dict inside the module structure artifact. -/
structure StructLesson where
  lesson_name : Option String
  lesson_objectives : List String
  estimated_duration : String
  lab_instructions : Option String
deriving Repr, DecidableEq

/-- Embeds a module dict of the module structure artifact. -/
structure CourseModule where
  module_id : Int
  module_name : Option String
  module_objectives : List String
  lessons : List StructLesson
  duration_allocation : String
  quiz_plan : Option QuizPlan
  is_lab_module : Bool
deriving Repr, DecidableEq

/-- Embeds the module structure artifact: a dict with root key `modules`. -/
structure ModuleStructure where
  modules : List CourseModule
deriving Repr, DecidableEq

/-- Embeds one generated lesson dict of the `course_content` artifact. -/
structure ContentLesson where
  lesson_id : Option String
  module_id : Int
  lesson_name : Option String
  introduction : Option String
  main_content : Option String
  examples : List String
  case_studies : List String
  practice_exercises : List String
  summary : Option String
  visual_suggestions : List String
  lab_instructions : Option String
deriving Repr, DecidableEq

/-- Embeds one question dict inside a quiz. -/
structure QuizQuestion where
  question : Option String
  correct_answer : Option String
  explanation : Option String
  learning_objective : Option String
deriving Repr, DecidableEq

/-- Embeds one quiz dict of the `quizzes` artifact. -/
structure Quiz where
  quiz_id : Option String
  module_id : Int
  quiz_type : String
  questions : List QuizQuestion
deriving Repr, DecidableEq

/-- Embeds the research findings artifact (only the field the validators read). -/
structure ResearchFindings where
  learning_objectives : List String
deriving Repr, DecidableEq

/-- The `approval_status` dict: keys "structure" / "content" / "quizzes",
values are Python `True` / `False` / `None` (a missing key reads as `None`). -/
structure ApprovalStatus where
  structureStatus : Option Bool
  contentStatus : Option Bool
  quizzesStatus : Option Bool
deriving Repr, DecidableEq

/-- The `human_feedback` dict: free-text feedback per checkpoint plus the
suggestion lists stored under "structure_suggestions" / "content_suggestions" /
"quiz_suggestions" (missing keys read as "" resp. `[]`, which is what
`_ensure_feedback_state` initializes them to). -/
structure HumanFeedback where
  structureFeedback : String
  contentFeedback : String
  quizzesFeedback : String
  structure_suggestions : List String
  content_suggestions : List String
  quiz_suggestions : List String
deriving Repr, DecidableEq

/-- Result dict of `validate_module_structure`. -/
structure StructValidation where
  is_valid : Bool
  quality_score : ℚ
  issues : List String
  recommendations : List String
deriving Repr, DecidableEq

/-- Result dict of `validate_content`. -/
structure ContentValidation where
  is_valid : Bool
  quality_score : ℚ
  lesson_scores : List (String × ℚ)
  flagged_lessons : List String
  issues : List String
  recommendations : List String
deriving Repr, DecidableEq

/-- Result dict of `validate_quizzes`. -/
structure QuizValidation where
  is_valid : Bool
  quality_score : ℚ
  objective_coverage : ℚ
  quiz_scores : List (String × ℚ)
  flagged_quizzes : List String
  issues : List String
  recommendations : List String
deriving Repr, DecidableEq

/-- The `validation_results` dict: one entry per validation checkpoint,
missing until the corresponding validator node has run. -/
structure ValidationResults where
  module_structure : Option StructValidation
  content : Option ContentValidation
  quizzes : Option QuizValidation
deriving Repr, DecidableEq

/-- Embeds `CourseState`: the single workflow state dict threaded through
every stage (restricted to the fields the embedded stages read or write). -/
structure CourseState where
  course_subject : String
  learner_level : String
  number_of_modules : Nat
  graded_quizzes_per_module : Nat
  practice_quizzes_per_module : Nat
  needs_lab_module : Bool
  research_findings : Option ResearchFindings
  module_structure : Option ModuleStructure
  course_content : Option (List ContentLesson)
  quizzes : Option (List Quiz)
  approval_status : ApprovalStatus
  human_feedback : HumanFeedback
  validation_results : ValidationResults
  errors : List String
  current_step : String
deriving Repr, DecidableEq

/-- Python truthiness of `state.get("course_content")`: the key may be
missing or hold an empty list, both falsy. -/
def contentPresent (o : Option (List ContentLesson)) : Bool :=
  match o with
  | none => false
  | some l => !l.isEmpty

/-- Python truthiness of `state.get("quizzes")`. -/
def quizzesPresent (o : Option (List Quiz)) : Bool :=
  match o with
  | none => false
  | some l => !l.isEmpty

/-! ### Validation agent (`nodes/validation_agent.py`) -/

/-- Accumulator of the module loop in `validate_module_structure`. -/
structure StructScanAcc where
  quality_score : ℚ
  modules_without_lessons : List Int
  quiz_plan_issues : List String
deriving Repr, DecidableEq

/-- The `for module in modules` loop of `validate_module_structure`
(lines 35 to 46): +0.2 quality per module that has at least one lesson,
collect ids of modules without lessons, and record a quiz-plan issue for
every module whose planned graded count differs from the requested one. -/
def structureModuleScan (gradedReq : Nat) : List CourseModule → StructScanAcc
  | [] => { quality_score := 0, modules_without_lessons := [], quiz_plan_issues := [] }
  | m :: rest =>
      let acc := structureModuleScan gradedReq rest
      let mScore : ℚ := if m.lessons.isEmpty then 0 else 2/10
      let mNo : List Int := if m.lessons.isEmpty then [m.module_id] else []
      let mIssues : List String :=
        if ((m.quiz_plan.map QuizPlan.graded).getD 0 ≠ gradedReq) then
          ["Module " ++ toString m.module_id ++ " quiz plan doesn\x27t match requirements"]
        else []
      { quality_score := mScore + acc.quality_score,
        modules_without_lessons := mNo ++ acc.modules_without_lessons,
        quiz_plan_issues := mIssues ++ acc.quiz_plan_issues }

/-- Validation checkpoint A (`validate_module_structure`): structure quality. -/
def validate_module_structure (state : CourseState) : StructValidation :=
  match state.module_structure with
  | none =>
      { is_valid := false, quality_score := 0,
        issues := ["Module structure is missing"], recommendations := [] }
  | some ms =>
      let modules := ms.modules
      let completenessIssues : List String :=
        if modules.length ≠ state.number_of_modules then
          ["Expected " ++ toString state.number_of_modules ++ " modules, got "
            ++ toString modules.length]
        else []
      let scan := structureModuleScan state.graded_quizzes_per_module modules
      let issues := completenessIssues ++ scan.quiz_plan_issues
      let withoutLessons := scan.modules_without_lessons
      let issues :=
        if withoutLessons.isEmpty then issues
        else issues ++ ["Modules without lessons: " ++ toString withoutLessons]
      let is_valid := withoutLessons.isEmpty
      let q1 : ℚ := min (scan.quality_score / ((max modules.length 1 : Nat) : ℚ)) 1
      let q2 : ℚ := if q1 > 0 then 1/2 + q1 * (1/2) else q1
      let recommendations :=
        if q2 < 7/10 then ["Consider reviewing module structure for better organization"]
        else []
      { is_valid := is_valid, quality_score := q2, issues := issues,
        recommendations := recommendations }

/-- The per-field check of `validate_content` (lines 98 to 104): +0.33 when the
field is truthy and longer than 50 characters, an issue when the field is
falsy, nothing when it is present but short. -/
def contentFieldCheck (lessonId : String) (fieldName : String)
    (value : Option String) : ℚ × List String :=
  if truthyStr value && decide ((value.getD "").length > 50) then (33/100, [])
  else if !(truthyStr value) then (0, ["Lesson " ++ lessonId ++ " missing " ++ fieldName])
  else (0, [])

/-- Per-lesson scoring of `validate_content`: the three required fields plus
+0.1 for a non-empty examples list and +0.1 for non-empty practice exercises. -/
def contentLessonEval (lesson : ContentLesson) : ℚ × List String :=
  let lessonId := lesson.lesson_id.getD "unknown"
  let c1 := contentFieldCheck lessonId "introduction" lesson.introduction
  let c2 := contentFieldCheck lessonId "main_content" lesson.main_content
  let c3 := contentFieldCheck lessonId "summary" lesson.summary
  let score := c1.1 + c2.1 + c3.1
  let score := if !lesson.examples.isEmpty then score + 1/10 else score
  let score := if !lesson.practice_exercises.isEmpty then score + 1/10 else score
  (score, c1.2 ++ c2.2 ++ c3.2)

/-- Accumulator of the lesson loop in `validate_content`. -/
structure ContentScanAcc where
  lesson_scores : List (String × ℚ)
  flagged_lessons : List String
  issues : List String
  total_score : ℚ
deriving Repr, DecidableEq

/-- The `for lesson in state["course_content"]` loop of `validate_content`. -/
def contentScan : List ContentLesson → ContentScanAcc
  | [] => { lesson_scores := [], flagged_lessons := [], issues := [], total_score := 0 }
  | lesson :: rest =>
      let acc := contentScan rest
      let lessonId := lesson.lesson_id.getD "unknown"
      let e := contentLessonEval lesson
      { lesson_scores := (lessonId, e.1) :: acc.lesson_scores,
        flagged_lessons := (if e.1 < 8/10 then [lessonId] else []) ++ acc.flagged_lessons,
        issues := e.2 ++ acc.issues,
        total_score := e.1 + acc.total_score }

/-- Validation checkpoint B (`validate_content`): lesson content quality. -/
def validate_content (state : CourseState) : ContentValidation :=
  if !(contentPresent state.course_content) then
    { is_valid := false, quality_score := 0, lesson_scores := [],
      flagged_lessons := [], issues := ["Course content is missing"],
      recommendations := [] }
  else
    let lessons := state.course_content.getD []
    let scan := contentScan lessons
    -- the `num_lessons == 0` branch of the source is unreachable here because
    -- the truthiness check above already returned for an empty list
    let q : ℚ := if lessons.length > 0 then scan.total_score / lessons.length else 0
    let afterMean :=
      { is_valid := true, quality_score := q, lesson_scores := scan.lesson_scores,
        flagged_lessons := scan.flagged_lessons, issues := scan.issues,
        recommendations := ([] : List String) }
    if q < 8/10 then
      { afterMean with
        is_valid := false,
        recommendations := afterMean.recommendations
          ++ ["Some lessons need improvement in content quality"] }
    else afterMean

/-- Python set insertion used to model `objectives_covered.add(...)`. -/
def setInsert (s : List String) (x : String) : List String :=
  if x ∈ s then s else s ++ [x]

/-- Folds a list of referenced objectives into a duplicate-free list, the way
repeated `set.add` calls do. -/
def distinctFold (l : List String) : List String :=
  l.foldl setInsert []

/-- Per-question accumulation of `validate_quizzes` over one quiz: the count
of valid questions, the referenced learning objectives in order, and the raw
quiz score (+0.1 long question text, +0.1 correct answer, +0.05 explanation). -/
def questionScan : List QuizQuestion → Nat × List String × ℚ
  | [] => (0, [], 0)
  | question :: rest =>
      let acc := questionScan rest
      let isValidQ := truthyStr question.question
        && decide ((question.question.getD "").length > 20)
      let v := (if isValidQ then 1 else 0) + acc.1
      let score : ℚ :=
        (if isValidQ then 1/10 else 0)
        + (if truthyStr question.correct_answer then 1/10 else 0)
        + (if truthyStr question.explanation then 1/20 else 0)
        + acc.2.2
      let objs :=
        (match question.learning_objective with
         | some o => if o == "" then [] else [o]
         | none => []) ++ acc.2.1
      (v, objs, score)

/-- Accumulator of the quiz loop in `validate_quizzes`. -/
structure QuizScanAcc where
  total_questions : Nat
  valid_questions : Nat
  objectives_covered : List String
  quiz_scores : List (String × ℚ)
  flagged_quizzes : List String
  issues : List String
deriving Repr, DecidableEq

/-- The `for quiz in state["quizzes"]` loop of `validate_quizzes`: a quiz with
no questions only records an issue and is skipped; otherwise its raw score is
normalized by its question count, clamped to 1.0, and the quiz is flagged when
the normalized score is below 0.8. -/
def quizScan : List Quiz → QuizScanAcc
  | [] =>
      { total_questions := 0, valid_questions := 0, objectives_covered := [],
        quiz_scores := [], flagged_quizzes := [], issues := [] }
  | quiz :: rest =>
      let acc := quizScan rest
      let quizId := quiz.quiz_id.getD "unknown"
      if quiz.questions.isEmpty then
        { acc with issues := ["Quiz " ++ quizId ++ " has no questions"] ++ acc.issues }
      else
        let qs := questionScan quiz.questions
        let qscore : ℚ := min (qs.2.2 / (quiz.questions.length : ℚ)) 1
        { total_questions := quiz.questions.length + acc.total_questions,
          valid_questions := qs.1 + acc.valid_questions,
          objectives_covered := qs.2.1 ++ acc.objectives_covered,
          quiz_scores := (quizId, qscore) :: acc.quiz_scores,
          flagged_quizzes := (if qscore < 8/10 then [quizId] else []) ++ acc.flagged_quizzes,
          issues := acc.issues }

/-- Validation checkpoint C (`validate_quizzes`): quiz quality and alignment. -/
def validate_quizzes (state : CourseState) : QuizValidation :=
  if !(quizzesPresent state.quizzes) then
    { is_valid := false, quality_score := 0, objective_coverage := 0,
      quiz_scores := [], flagged_quizzes := [],
      issues := ["Quizzes are missing"], recommendations := [] }
  else
    let quizzes := state.quizzes.getD []
    let scan := quizScan quizzes
    let qualityValid : ℚ × Bool :=
      if scan.total_questions > 0 then
        ((scan.valid_questions : ℚ) / (scan.total_questions : ℚ), true)
      else (0, false)
    let coverage : ℚ :=
      match state.research_findings with
      | some rf =>
          if rf.learning_objectives.length > 0 then
            ((distinctFold scan.objectives_covered).length : ℚ)
              / (rf.learning_objectives.length : ℚ)
          else 1/2
      | none => 0
    let base :=
      { is_valid := qualityValid.2, quality_score := qualityValid.1,
        objective_coverage := coverage, quiz_scores := scan.quiz_scores,
        flagged_quizzes := scan.flagged_quizzes, issues := scan.issues,
        recommendations := ([] : List String) }
    if qualityValid.1 < 8/10 ∨ coverage < 8/10 then
      { base with
        is_valid := false,
        recommendations := base.recommendations
          ++ ["Some quizzes need improvement in quality or objective coverage"] }
    else base

/-! ### Graph routing (`graph/course_builder_graph.py`) -/

/-- Node wrapper `update_validation_results(state, "module_structure", ...)`:
stores the validator output into `validation_results` and returns the state. -/
def update_validation_results_structure (state : CourseState) : CourseState :=
  { state with
    validation_results :=
      { state.validation_results with module_structure := some (validate_module_structure state) } }

/-- Node wrapper `update_validation_results(state, "content", ...)`. -/
def update_validation_results_content (state : CourseState) : CourseState :=
  { state with
    validation_results :=
      { state.validation_results with content := some (validate_content state) } }

/-- Node wrapper `update_validation_results(state, "quizzes", ...)`. -/
def update_validation_results_quizzes (state : CourseState) : CourseState :=
  { state with
    validation_results :=
      { state.validation_results with quizzes := some (validate_quizzes state) } }

/-- Router `route_after_structure_validation`: "pass" when the stored quality
score is at least 0.7 and the result is valid, otherwise "review". -/
def route_after_structure_validation (state : CourseState) : String :=
  let validation := state.validation_results.module_structure
  let quality_score := (validation.map StructValidation.quality_score).getD 0
  let is_valid := (validation.map StructValidation.is_valid).getD false
  if quality_score ≥ 7/10 ∧ is_valid then "pass" else "review"

/-- Router `route_after_structure_review`. -/
def route_after_structure_review (state : CourseState) : String :=
  let approval_status := state.approval_status.structureStatus
  let feedback := state.human_feedback.structureFeedback.toLower
  if approval_status = some true then "approve"
  else if approval_status = some false ∨ strContains feedback "reject" then "reject"
  else "continue"

/-- Router `route_after_content_validation`. -/
def route_after_content_validation (state : CourseState) : String :=
  let validation := state.validation_results.content
  let quality_score := (validation.map ContentValidation.quality_score).getD 0
  let flagged := (validation.map ContentValidation.flagged_lessons).getD []
  if quality_score ≥ 8/10 ∧ flagged.length = 0 then "pass" else "review"

/-- Router `route_after_quiz_validation`: "pass" when both the stored quality
score and objective coverage are at least 0.8. -/
def route_after_quiz_validation (state : CourseState) : String :=
  let validation := state.validation_results.quizzes
  let quality_score := (validation.map QuizValidation.quality_score).getD 0
  let objective_coverage := (validation.map QuizValidation.objective_coverage).getD 0
  if quality_score ≥ 8/10 ∧ objective_coverage ≥ 8/10 then "pass" else "review"

/-- The conditional edge map registered after `validate_module_structure` in
`create_course_builder_graph`. -/
def structureValidationEdges (label : String) : Option String :=
  if label == "pass" then some "xdp_agent"
  else if label == "review" then some "human_review_structure"
  else none

/-- The conditional edge map registered after `human_review_structure`. -/
def structureReviewEdges (label : String) : Option String :=
  if label == "approve" then some "xdp_agent"
  else if label == "reject" then some "module_structure_agent"
  else if label == "continue" then some "xdp_agent"
  else none

/-- The conditional edge map registered after `validate_quizzes`. -/
def quizValidationEdges (label : String) : Option String :=
  if label == "pass" then some "finalize_course"
  else if label == "review" then some "human_review_quizzes"
  else none

/-! ### HITL review nodes (`nodes/hitl_review_nodes.py`) -/

/-- The three review checkpoint names ("structure" / "content" / "quizzes"),
used as the dict key `review_type`. -/
inductive ReviewKind
  | moduleStructure
  | courseContent
  | courseQuizzes
deriving Repr, DecidableEq

/-- The string value of `review_type`. -/
def reviewTypeName : ReviewKind → String
  | .moduleStructure => "structure"
  | .courseContent => "content"
  | .courseQuizzes => "quizzes"

/-- Keyed read `state["approval_status"].get(review_type)`. -/
def ApprovalStatus.get (a : ApprovalStatus) : ReviewKind → Option Bool
  | .moduleStructure => a.structureStatus
  | .courseContent => a.contentStatus
  | .courseQuizzes => a.quizzesStatus

/-- Keyed write `state["approval_status"][review_type] = v`. -/
def ApprovalStatus.set (a : ApprovalStatus) : ReviewKind → Option Bool → ApprovalStatus
  | .moduleStructure, v => { a with structureStatus := v }
  | .courseContent, v => { a with contentStatus := v }
  | .courseQuizzes, v => { a with quizzesStatus := v }

/-- Keyed write `state["human_feedback"][review_type] = text`. -/
def HumanFeedback.setText (f : HumanFeedback) : ReviewKind → String → HumanFeedback
  | .moduleStructure, t => { f with structureFeedback := t }
  | .courseContent, t => { f with contentFeedback := t }
  | .courseQuizzes, t => { f with quizzesFeedback := t }

/-- Keyed write under the mapped suggestion key (`suggestion_key_map`):
"structure_suggestions" / "content_suggestions" / "quiz_suggestions". -/
def HumanFeedback.setSuggestions : HumanFeedback → ReviewKind → List String → HumanFeedback
  | f, .moduleStructure, s => { f with structure_suggestions := s }
  | f, .courseContent, s => { f with content_suggestions := s }
  | f, .courseQuizzes, s => { f with quiz_suggestions := s }

/-- A decision dict as produced by `get_interactive_feedback`: `approval_status`
is Python `True` / `False` / `None`, plus feedback text, specific issues and
suggestions. -/
structure ReviewDecision where
  approval_status : Option Bool
  feedback : String
  specific_issues : List String
  suggestions : List String
deriving Repr, DecidableEq

/-- `_process_review_feedback`: folds a decision into the state. Approval sets
`approval_status` true and `current_step` to "<type>_approved"; rejection sets
it false, marks "<type>_rejected" and stores non-empty suggestion lists under
the mapped suggestion key; a `None` decision (silent edit) is treated as an
implicit approval and marks "<type>_edited". -/
def process_review_feedback (state : CourseState) (kind : ReviewKind)
    (decision : ReviewDecision) : CourseState :=
  let state :=
    { state with human_feedback := state.human_feedback.setText kind decision.feedback }
  match decision.approval_status with
  | some true =>
      { state with
        approval_status := state.approval_status.set kind (some true),
        current_step := reviewTypeName kind ++ "_approved" }
  | some false =>
      let state :=
        { state with
          approval_status := state.approval_status.set kind (some false),
          current_step := reviewTypeName kind ++ "_rejected" }
      if decision.suggestions.isEmpty then state
      else { state with
             human_feedback := state.human_feedback.setSuggestions kind decision.suggestions }
  | none =>
      { state with
        approval_status := state.approval_status.set kind (some true),
        current_step := reviewTypeName kind ++ "_edited" }

/-- `human_review_structure`: when `approval_status["structure"]` is already
decided (True or False) the node returns the state unchanged without asking;
only when it is `None` does it collect an interactive decision (the blocking
`get_interactive_feedback` call is abstracted as the `decision` argument) and
fold it in. The boolean records whether the node asked, i.e. suspended. -/
def human_review_structure (state : CourseState) (decision : ReviewDecision) :
    CourseState × Bool :=
  match state.approval_status.get .moduleStructure with
  | some _ => (state, false)
  | none => (process_review_feedback state .moduleStructure decision, true)

/-- `human_review_content`, same shape as `human_review_structure`. -/
def human_review_content (state : CourseState) (decision : ReviewDecision) :
    CourseState × Bool :=
  match state.approval_status.get .courseContent with
  | some _ => (state, false)
  | none => (process_review_feedback state .courseContent decision, true)

/-- `human_review_quizzes`, same shape as `human_review_structure`. -/
def human_review_quizzes (state : CourseState) (decision : ReviewDecision) :
    CourseState × Bool :=
  match state.approval_status.get .courseQuizzes with
  | some _ => (state, false)
  | none => (process_review_feedback state .courseQuizzes decision, true)

/-! ### Generation stages (`agents/module_structure_agent.py`,
`agents/course_content_agent.py`, `agents/quiz_curator_agent.py`).

The external text-generation collaborator is abstracted as an outcome
argument: what each parallel task obtained from the model (a parsed
artifact, or an exception message). The collector loop over
`as_completed` futures is embedded in submission order; the final
artifact lists are sorted afterwards exactly as the source does, so the
collection order is normalized away. -/

/-- Lexicographic character-list comparison, the order Python uses for
string comparison in sort keys. -/
def charListLE : List Char → List Char → Bool
  | [], _ => true
  | _ :: _, [] => false
  | c :: cs, d :: ds => if c = d then charListLE cs ds else decide (c < d)

/-- Python string comparison `a <= b`. -/
def strLE (a b : String) : Bool :=
  charListLE a.data b.data

/-- The fallback structure synthesized by `module_structure_agent` when the
collaborator returns nothing or a structure without modules (lines 110 to 152):
`number_of_modules` templated modules of 3 lessons each, plus a lab module
when requested. -/
def structureFallback (state : CourseState) : ModuleStructure :=
  let baseModules : List CourseModule := (List.range state.number_of_modules).map fun i =>
    { module_id := (i : Int) + 1,
      module_name := some ("Module " ++ toString (i + 1)),
      module_objectives := ["Learn module " ++ toString (i + 1) ++ " concepts"],
      lessons := (List.range 3).map fun j =>
        { lesson_name := some ("Lesson " ++ toString (j + 1)),
          lesson_objectives := ["Understand lesson " ++ toString (j + 1)],
          estimated_duration := "30 minutes",
          lab_instructions := none },
      duration_allocation := "2 hours",
      quiz_plan := some { graded := state.graded_quizzes_per_module,
                          practice := state.practice_quizzes_per_module },
      is_lab_module := false }
  let modules :=
    if state.needs_lab_module then
      baseModules ++
        [{ module_id := (state.number_of_modules : Int) + 1,
           module_name := some "Lab Module",
           module_objectives := ["Apply learned concepts in practical scenarios"],
           lessons := [{ lesson_name := some "Lab Exercise",
                         lesson_objectives := ["Complete hands-on exercises"],
                         estimated_duration := "1 hour",
                         lab_instructions := none }],
           duration_allocation := "2 hours",
           quiz_plan := some { graded := 0, practice := 1 },
           is_lab_module := true }]
    else baseModules
  { modules := modules }

/-- `module_structure_agent`: guards on research findings, regenerates on
rejection feedback, replaces the artifact (collaborator output abstracted as
`llmResult`, with fallback synthesis when it is empty), and after a
regeneration resets `approval_status["structure"]` to `None`. -/
def module_structure_agent (state : CourseState) (llmResult : Option ModuleStructure) :
    CourseState :=
  match state.research_findings with
  | none => { state with errors := state.errors ++ ["Research findings not available"] }
  | some _ =>
      let is_regeneration :=
        state.approval_status.get .moduleStructure == some false
          || !state.human_feedback.structure_suggestions.isEmpty
      let module_structure :=
        match llmResult with
        | none => structureFallback state
        | some ms => if ms.modules.isEmpty then structureFallback state else ms
      let state1 :=
        { state with
          module_structure := some module_structure,
          current_step := "module_structure_created" }
      if is_regeneration then
        { state1 with approval_status := state1.approval_status.set .moduleStructure none }
      else state1

/-- A lesson dict after `course_content_agent` injected `module_id` and
`module_name` into it while flattening all modules (lines 57 to 61). -/
structure FlatLesson where
  module_id : Int
  module_name : Option String
  lesson_name : Option String
  lab_instructions : Option String
deriving Repr, DecidableEq

/-- The `all_lessons` flattening of `course_content_agent`. -/
def flatLessonList (ms : ModuleStructure) : List FlatLesson :=
  ms.modules.flatMap fun m =>
    m.lessons.map fun l =>
      { module_id := m.module_id, module_name := m.module_name,
        lesson_name := l.lesson_name, lab_instructions := l.lab_instructions }

/-- The templated placeholder content synthesized for one batch, used both
inside `generate_batch` (empty collaborator output, lines 147 to 162) and by
the collector for a failed batch (lines 190 to 207); the two code paths build
identical entries. -/
def contentBatchFallback (needsLab : Bool) (batchNum : Nat) (batch : List FlatLesson) :
    List ContentLesson :=
  batch.enum.map fun p =>
    { lesson_id := some ("lesson_" ++ toString p.2.module_id ++ "_"
        ++ toString batchNum ++ "_" ++ toString p.1),
      module_id := p.2.module_id,
      lesson_name := some (p.2.lesson_name.getD "Lesson"),
      introduction := some ("Introduction to " ++ p.2.lesson_name.getD "lesson"),
      main_content := some ("Main content for " ++ p.2.lesson_name.getD "lesson"),
      examples := ["Example 1", "Example 2"],
      case_studies := [],
      practice_exercises := ["Exercise 1", "Exercise 2"],
      summary := some ("Summary of " ++ p.2.lesson_name.getD "lesson"),
      visual_suggestions := ["Diagram", "Chart"],
      lab_instructions := if needsLab then p.2.lab_instructions else none }

/-- Outcome of the collaborator call for one batch: a parsed lesson list
(empty when the model returned nothing usable), or an exception message. -/
inductive BatchOutcome
  | parsed (content : List ContentLesson)
  | exn (message : String)
deriving Repr, DecidableEq

/-- `generate_batch`: returns `(batch_num, content, error)`. A parsed
non-empty result is passed through; an empty one is replaced by the templated
fallback; an exception is converted into an error value, never re-raised. -/
def generate_batch (needsLab : Bool) (batch : List FlatLesson) (batchNum : Nat)
    (outcome : BatchOutcome) : Nat × Option (List ContentLesson) × Option String :=
  match outcome with
  | .exn e => (batchNum, none, some e)
  | .parsed content =>
      if !content.isEmpty then (batchNum, some content, none)
      else (batchNum, some (contentBatchFallback needsLab batchNum batch), none)

/-- One step of the result-collection loop of `course_content_agent`
(lines 178 to 217): an errored batch is replaced by caller-side fallback
content; otherwise the generated content is appended. -/
def batchContribution (needsLab : Bool) (batch : List FlatLesson) (batchNum : Nat)
    (outcome : BatchOutcome) : List ContentLesson :=
  match generate_batch needsLab batch batchNum outcome with
  | (bn, _, some _) => contentBatchFallback needsLab bn batch
  | (_, some content, none) => content
  | (_, none, none) => []

/-- The sort order of `course_content.sort(key=lambda x: (module_id, lesson_id))`. -/
def contentOrder (a b : ContentLesson) : Prop :=
  a.module_id < b.module_id
    ∨ (a.module_id = b.module_id ∧ strLE (a.lesson_id.getD "") (b.lesson_id.getD "") = true)

instance : DecidableRel contentOrder := fun a b => by
  unfold contentOrder; infer_instance

/-- `course_content_agent`: guards on the module structure, resets the
content approval status when regenerating, fans the flattened lessons out in
batches of 4, collects per-batch results with fallback substitution, sorts,
and stores the artifact. -/
def course_content_agent (state : CourseState) (outcomes : Nat → BatchOutcome) :
    CourseState :=
  match state.module_structure with
  | none => { state with errors := state.errors ++ ["Module structure not available"] }
  | some ms =>
      let is_regeneration :=
        state.approval_status.get .courseContent == some false
          || !state.human_feedback.content_suggestions.isEmpty
      let state1 :=
        if is_regeneration then
          { state with approval_status := state.approval_status.set .courseContent none }
        else state
      let batches := List.toChunks 4 (flatLessonList ms)
      let collected := batches.enum.flatMap fun p =>
        batchContribution state.needs_lab_module p.2 (p.1 + 1) (outcomes (p.1 + 1))
      let sorted := List.insertionSort contentOrder collected
      { state1 with course_content := some sorted, current_step := "course_content_created" }

/-- One planned quiz generation task of `quiz_curator_agent` (quiz type,
owning module and 1-based quiz number). -/
structure QuizTask where
  quiz_type : String
  module_id : Int
  quiz_num : Nat
deriving Repr, DecidableEq

/-- The task-collection loop of `quiz_curator_agent` (lines 115 to 134):
per module, `quiz_plan.graded` graded tasks then `quiz_plan.practice`
practice tasks, the per-module plan defaulting to the requested counts. -/
def quizTasksFor (state : CourseState) (modules : List CourseModule) : List QuizTask :=
  modules.flatMap fun m =>
    let graded_count := (m.quiz_plan.map QuizPlan.graded).getD state.graded_quizzes_per_module
    let practice_count :=
      (m.quiz_plan.map QuizPlan.practice).getD state.practice_quizzes_per_module
    ((List.range graded_count).map fun qn =>
      { quiz_type := "graded", module_id := m.module_id, quiz_num := qn + 1 })
    ++ ((List.range practice_count).map fun qn =>
      ({ quiz_type := "practice", module_id := m.module_id, quiz_num := qn + 1 } : QuizTask))

/-- Post-processing applied by `generate_quiz` to a successful result:
normalize `module_id`, overwrite `quiz_id` and `quiz_type` from the task. -/
def finalizeQuiz (task : QuizTask) (quiz : Quiz) : Quiz :=
  { quiz with
    module_id := task.module_id,
    quiz_id := some (task.quiz_type ++ "_quiz_" ++ toString task.module_id
      ++ "_" ++ toString task.quiz_num),
    quiz_type := task.quiz_type }

/-- The sort order of `all_quizzes.sort(key=sort_key)`: by module id, then
quiz type, then quiz id. -/
def quizOrder (a b : Quiz) : Prop :=
  a.module_id < b.module_id
    ∨ (a.module_id = b.module_id
        ∧ (strLE a.quiz_type b.quiz_type = true
            ∧ (a.quiz_type = b.quiz_type
                → strLE (a.quiz_id.getD "") (b.quiz_id.getD "") = true)))

instance : DecidableRel quizOrder := fun a b => by
  unfold quizOrder; infer_instance

/-- `quiz_curator_agent`: guards on structure and content, collects the
planned tasks, keeps each task whose collaborator outcome produced a quiz
(a failed or empty outcome is only logged and contributes nothing), sorts
the result, stores it, and after a regeneration resets
`approval_status["quizzes"]` to `None`. -/
def quiz_curator_agent (state : CourseState) (outcomes : Nat → Option Quiz) :
    CourseState :=
  if !state.module_structure.isSome || !(contentPresent state.course_content) then
    { state with
      errors := state.errors ++ ["Module structure or course content not available"] }
  else
    let modules := (state.module_structure.getD { modules := [] }).modules
    let is_regeneration :=
      state.approval_status.get .courseQuizzes == some false
        || !state.human_feedback.quiz_suggestions.isEmpty
    let tasks := quizTasksFor state modules
    let all_quizzes := tasks.enum.filterMap fun p => (outcomes p.1).map (finalizeQuiz p.2)
    let sorted := List.insertionSort quizOrder all_quizzes
    let state1 := { state with quizzes := some sorted, current_step := "quizzes_created" }
    if is_regeneration then
      { state1 with approval_status := state1.approval_status.set .courseQuizzes none }
    else state1

/-! ### Supporting lemmas -/

lemma structureModuleScan_score (g : Nat) (l : List CourseModule) :
    (structureModuleScan g l).quality_score
      = ((l.countP fun m => !m.lessons.isEmpty : Nat) : ℚ) * (1/5) := by
  induction l with
  | nil => simp [structureModuleScan]
  | cons m rest ih =>
      by_cases h : m.lessons.isEmpty
      · simp [structureModuleScan, List.countP_cons, h, ih]
      · simp [structureModuleScan, List.countP_cons, h, ih]
        ring

lemma vms_score_formula (s : CourseState) (ms : ModuleStructure)
    (hms : s.module_structure = some ms) (hne : ms.modules ≠ []) :
    (validate_module_structure s).quality_score =
      if (ms.modules.countP fun m => !m.lessons.isEmpty) = 0 then 0
      else 1/2 + ((ms.modules.countP fun m => !m.lessons.isEmpty : Nat) : ℚ)
        / (ms.modules.length : ℚ) * (1/10) := by
  unfold validate_module_structure
  rw [hms]
  simp only [structureModuleScan_score]
  set k : Nat := ms.modules.countP fun m => !m.lessons.isEmpty with hk
  set n : Nat := ms.modules.length with hn
  have hnpos : 0 < n := by
    rw [hn]
    exact List.length_pos.mpr hne
  have hmaxn : max n 1 = n := max_eq_left hnpos
  have hnQ : (0 : ℚ) < (n : ℚ) := by exact_mod_cast hnpos
  have hkn : k ≤ n := List.countP_le_length _
  have hdivle : (k : ℚ) * (1/5) / (n : ℚ) ≤ 1/5 := by
    rw [div_le_iff₀ hnQ]
    have : (k : ℚ) ≤ (n : ℚ) := by exact_mod_cast hkn
    nlinarith
  rw [hmaxn]
  have hmin : min ((k : ℚ) * (1/5) / (n : ℚ)) 1 = (k : ℚ) * (1/5) / (n : ℚ) :=
    min_eq_left (by linarith)
  rw [hmin]
  by_cases hk0 : k = 0
  · have hz : (k : ℚ) * (1/5) / (n : ℚ) = 0 := by
      rw [hk0]
      norm_num
    rw [hz, if_neg (by norm_num), if_pos hk0]
  · have hkpos : (0 : ℚ) < (k : ℚ) := by
      have : 0 < k := Nat.pos_of_ne_zero hk0
      exact_mod_cast this
    have hqpos : (0 : ℚ) < (k : ℚ) * (1/5) / (n : ℚ) := by positivity
    rw [if_pos hqpos, if_neg hk0]
    field_simp
    ring

lemma validate_module_structure_score_le (s : CourseState) :
    (validate_module_structure s).quality_score ≤ 3/5 := by
  unfold validate_module_structure
  cases hms : s.module_structure with
  | none => norm_num
  | some ms =>
      simp only [structureModuleScan_score]
      set k : Nat := ms.modules.countP fun m => !m.lessons.isEmpty with hk
      set n : Nat := ms.modules.length with hn
      have hkn : k ≤ n := List.countP_le_length _
      have hpos : (0 : ℚ) < ((max n 1 : Nat) : ℚ) := by
        have h1 : (1 : Nat) ≤ max n 1 := le_max_right _ _
        exact_mod_cast Nat.lt_of_lt_of_le Nat.zero_lt_one h1
      have hq1le : (k : ℚ) * (1/5) / ((max n 1 : Nat) : ℚ) ≤ 1/5 := by
        rw [div_le_iff₀ hpos]
        have hkm : (k : ℚ) ≤ ((max n 1 : Nat) : ℚ) := by
          exact_mod_cast le_trans hkn (le_max_left _ _)
        nlinarith
      set q1 : ℚ := min ((k : ℚ) * (1/5) / ((max n 1 : Nat) : ℚ)) 1 with hq1
      have hble : q1 ≤ 1/5 := le_trans (min_le_left _ _) hq1le
      by_cases hgt : q1 > 0
      · rw [if_pos hgt]
        nlinarith
      · rw [if_neg hgt]
        linarith

lemma update_structure_validation_lookup (s : CourseState) :
    (update_validation_results_structure s).validation_results.module_structure
      = some (validate_module_structure s) := rfl

/-- Claim C2: the quality score produced by `validate_module_structure` is at
most 0.6 for every state (0.2 per module with lessons, normalized by module
count, then mapped through 0.5 + score * 0.5), below the 0.7 routing
threshold; consequently `route_after_structure_validation` returns "review"
after every structure validation, and the registered edge always leads to
`human_review_structure`, never directly to `xdp_agent`. -/
theorem claim2_structure_validation_always_routes_review (s : CourseState) :
    (validate_module_structure s).quality_score ≤ 3/5
    ∧ route_after_structure_validation (update_validation_results_structure s) = "review"
    ∧ structureValidationEdges
        (route_after_structure_validation (update_validation_results_structure s))
      = some "human_review_structure" := by
  have hle := validate_module_structure_score_le s
  have hroute :
      route_after_structure_validation (update_validation_results_structure s) = "review" := by
    simp only [route_after_structure_validation]
    rw [update_structure_validation_lookup]
    apply if_neg
    rintro ⟨hq, -⟩
    have hq2 : (validate_module_structure s).quality_score ≥ 7/10 := hq
    linarith
  refine ⟨hle, hroute, ?_⟩
  rw [hroute]
  rfl

/-- Concrete structure artifact in which every module has at least one
lesson and the module and quiz-plan counts match the requested ones. -/
def fullStructure : ModuleStructure :=
  { modules := [{ module_id := 1,
                  module_name := some "Module 1",
                  module_objectives := ["obj"],
                  lessons := [{ lesson_name := some "Lesson 1",
                                lesson_objectives := ["lobj"],
                                estimated_duration := "30 minutes",
                                lab_instructions := none }],
                  duration_allocation := "2 hours",
                  quiz_plan := some { graded := 1, practice := 0 },
                  is_lab_module := false }] }

/-- A minimal baseline workflow state; concrete test states below override
individual fields. -/
def baseState : CourseState :=
  { course_subject := "subject",
    learner_level := "beginner",
    number_of_modules := 1,
    graded_quizzes_per_module := 1,
    practice_quizzes_per_module := 0,
    needs_lab_module := false,
    research_findings := none,
    module_structure := none,
    course_content := none,
    quizzes := none,
    approval_status := { structureStatus := none, contentStatus := none, quizzesStatus := none },
    human_feedback := { structureFeedback := "", contentFeedback := "", quizzesFeedback := "",
                        structure_suggestions := [], content_suggestions := [],
                        quiz_suggestions := [] },
    validation_results := { module_structure := none, content := none, quizzes := none },
    errors := [],
    current_step := "start" }

/-- Claim C1 counterexample: a structure in which every module has at least
one lesson scores 0.6, not 1.0 as the claim states. -/
theorem claim1_counterexample :
    (validate_module_structure
      { baseState with module_structure := some fullStructure }).quality_score = 3/5
    ∧ ((3 : ℚ)/5 ≠ 1)
    ∧ fullStructure.modules ≠ []
    ∧ (∀ m ∈ fullStructure.modules, m.lessons ≠ []) := by
  have h := vms_score_formula
    { baseState with module_structure := some fullStructure } fullStructure rfl (by decide)
  have hcount : (fullStructure.modules.countP fun m => !m.lessons.isEmpty) = 1 := by decide
  rw [hcount] at h
  have hlen : fullStructure.modules.length = 1 := by decide
  rw [hlen] at h
  refine ⟨?_, by norm_num, by decide, by decide⟩
  rw [h]
  norm_num

/-- Claim C1 (amended): for every state with a non-empty `module_structure`,
the structure quality score is 0 when no module has a lesson, and otherwise a
50% baseline plus up to 10% (not 50%) proportional to the fraction of modules
that have at least one lesson, so a structure in which every module has at
least one lesson scores 0.6 (not 1.0). -/
theorem claim1_amended_structure_quality_blend (s : CourseState) (ms : ModuleStructure)
    (hms : s.module_structure = some ms) (hne : ms.modules ≠ []) :
    (validate_module_structure s).quality_score =
      if (ms.modules.countP fun m => !m.lessons.isEmpty) = 0 then 0
      else 1/2 + ((ms.modules.countP fun m => !m.lessons.isEmpty : Nat) : ℚ)
        / (ms.modules.length : ℚ) * (1/10) :=
  vms_score_formula s ms hms hne

/-- Witness for the amended claim C1 at a one-module structure whose module
has a lesson. -/
theorem claim1_witness :
    (validate_module_structure
      { baseState with module_structure := some fullStructure }).quality_score =
      if (fullStructure.modules.countP fun m => !m.lessons.isEmpty) = 0 then 0
      else 1/2 + ((fullStructure.modules.countP fun m => !m.lessons.isEmpty : Nat) : ℚ)
        / (fullStructure.modules.length : ℚ) * (1/10) :=
  claim1_amended_structure_quality_blend
    { baseState with module_structure := some fullStructure } fullStructure rfl (by decide)

/-- Claim C5: resuming the structure checkpoint with an approval decision sets
`current_step` to "structure_approved" and routes over the "approve" edge to
`xdp_agent`; resuming with a rejection carrying suggestions sets
`current_step` to "structure_rejected", stores the suggestions under
`structure_suggestions` in `human_feedback`, and routes over the "reject"
edge back to `module_structure_agent`. -/
theorem claim5_structure_checkpoint_roundtrip (s : CourseState) (fb fb2 : String)
    (issues issues2 suggs : List String) (hs : suggs ≠ []) :
    ((process_review_feedback s .moduleStructure
        { approval_status := some true, feedback := fb,
          specific_issues := issues, suggestions := [] }).current_step = "structure_approved"
      ∧ route_after_structure_review (process_review_feedback s .moduleStructure
          { approval_status := some true, feedback := fb,
            specific_issues := issues, suggestions := [] }) = "approve"
      ∧ structureReviewEdges "approve" = some "xdp_agent")
    ∧ ((process_review_feedback s .moduleStructure
        { approval_status := some false, feedback := fb2,
          specific_issues := issues2, suggestions := suggs }).current_step
          = "structure_rejected"
      ∧ (process_review_feedback s .moduleStructure
          { approval_status := some false, feedback := fb2,
            specific_issues := issues2, suggestions := suggs
          }).human_feedback.structure_suggestions = suggs
      ∧ route_after_structure_review (process_review_feedback s .moduleStructure
          { approval_status := some false, feedback := fb2,
            specific_issues := issues2, suggestions := suggs }) = "reject"
      ∧ structureReviewEdges "reject" = some "module_structure_agent") := by
  have hse : suggs.isEmpty = false := by
    cases suggs with
    | nil => exact absurd rfl hs
    | cons a t => rfl
  refine ⟨⟨rfl, ?_, rfl⟩, ?_, ?_, ?_, rfl⟩
  · simp [process_review_feedback, route_after_structure_review,
      ApprovalStatus.set, ApprovalStatus.get, HumanFeedback.setText, reviewTypeName]
  · simp [process_review_feedback, reviewTypeName, hse,
      ApprovalStatus.set, HumanFeedback.setText, HumanFeedback.setSuggestions]
  · simp [process_review_feedback, reviewTypeName, hse,
      ApprovalStatus.set, HumanFeedback.setText, HumanFeedback.setSuggestions]
  · simp [process_review_feedback, route_after_structure_review, reviewTypeName, hse,
      ApprovalStatus.set, ApprovalStatus.get, HumanFeedback.setText,
      HumanFeedback.setSuggestions]

/-- Witness for claim C5 with the concrete suggestion list of the spec
example. -/
theorem claim5_witness :
    ((process_review_feedback baseState .moduleStructure
        { approval_status := some true, feedback := "ok",
          specific_issues := [], suggestions := [] }).current_step = "structure_approved"
      ∧ route_after_structure_review (process_review_feedback baseState .moduleStructure
          { approval_status := some true, feedback := "ok",
            specific_issues := [], suggestions := [] }) = "approve"
      ∧ structureReviewEdges "approve" = some "xdp_agent")
    ∧ ((process_review_feedback baseState .moduleStructure
        { approval_status := some false, feedback := "needs work",
          specific_issues := [], suggestions := ["add more examples"] }).current_step
          = "structure_rejected"
      ∧ (process_review_feedback baseState .moduleStructure
          { approval_status := some false, feedback := "needs work",
            specific_issues := [], suggestions := ["add more examples"]
          }).human_feedback.structure_suggestions = ["add more examples"]
      ∧ route_after_structure_review (process_review_feedback baseState .moduleStructure
          { approval_status := some false, feedback := "needs work",
            specific_issues := [], suggestions := ["add more examples"] }) = "reject"
      ∧ structureReviewEdges "reject" = some "module_structure_agent") :=
  claim5_structure_checkpoint_roundtrip baseState "ok" "needs work" [] []
    ["add more examples"] (by decide)

/-- Claim C10: each validator is a pure function of the state fields it
reads: two states agreeing on those fields produce identical validation
results (in particular identical quality scores and issue lists, so a rerun
on an unmodified artifact is bit-identical), and the validator node wrappers
leave the artifact fields untouched. -/
theorem claim10_validators_pure (s1 s2 : CourseState) :
    (s1.module_structure = s2.module_structure → s1.number_of_modules = s2.number_of_modules →
      s1.graded_quizzes_per_module = s2.graded_quizzes_per_module →
      validate_module_structure s1 = validate_module_structure s2)
    ∧ (s1.course_content = s2.course_content → validate_content s1 = validate_content s2)
    ∧ (s1.quizzes = s2.quizzes → s1.research_findings = s2.research_findings →
        validate_quizzes s1 = validate_quizzes s2)
    ∧ (update_validation_results_structure s1).module_structure = s1.module_structure
    ∧ (update_validation_results_content s1).course_content = s1.course_content
    ∧ (update_validation_results_quizzes s1).quizzes = s1.quizzes := by
  refine ⟨?_, ?_, ?_, rfl, rfl, rfl⟩
  · intro h1 h2 h3
    unfold validate_module_structure
    rw [h1, h2, h3]
  · intro h
    unfold validate_content
    rw [h]
  · intro h1 h2
    unfold validate_quizzes
    rw [h1, h2]

/-- Witness for claim C10, rerunning the quiz validator on identical state. -/
theorem claim10_witness :
    validate_quizzes baseState = validate_quizzes baseState ∧
    validate_module_structure baseState = validate_module_structure baseState :=
  ⟨(claim10_validators_pure baseState baseState).2.2.1 rfl rfl,
   (claim10_validators_pure baseState baseState).1 rfl rfl rfl⟩

lemma contentFieldCheck_score (id fn : String) (v : Option String) :
    (contentFieldCheck id fn v).1 = if (v.getD "").length > 50 then (33/100 : ℚ) else 0 := by
  cases v with
  | none => simp [contentFieldCheck, truthyStr]
  | some t =>
      by_cases ht : t = ""
      · subst ht
        simp [contentFieldCheck, truthyStr]
      · by_cases hl : t.length > 50
        · simp [contentFieldCheck, truthyStr, ht, hl]
        · simp [contentFieldCheck, truthyStr, ht, hl]

lemma contentLessonEval_score (lesson : ContentLesson) :
    (contentLessonEval lesson).1 =
      (if (lesson.introduction.getD "").length > 50 then (33/100 : ℚ) else 0)
      + (if (lesson.main_content.getD "").length > 50 then 33/100 else 0)
      + (if (lesson.summary.getD "").length > 50 then 33/100 else 0)
      + (if !lesson.examples.isEmpty then 1/10 else 0)
      + (if !lesson.practice_exercises.isEmpty then 1/10 else 0) := by
  simp only [contentLessonEval, contentFieldCheck_score]
  by_cases he : lesson.examples.isEmpty <;> by_cases hp : lesson.practice_exercises.isEmpty <;>
    simp [he, hp]

lemma contentScan_total (l : List ContentLesson) :
    (contentScan l).total_score = (l.map fun lesson => (contentLessonEval lesson).1).sum := by
  induction l with
  | nil => simp [contentScan]
  | cons a t ih => simp [contentScan, ih]

/-- The example lesson of the claim: a 60-character introduction, a
20-character main content, a 10-character summary, 2 examples and no
practice exercises. -/
def exampleLesson : ContentLesson :=
  { lesson_id := some "lesson_1",
    module_id := 1,
    lesson_name := some "Example",
    introduction := some (String.mk (List.replicate 60 'a')),
    main_content := some (String.mk (List.replicate 20 'b')),
    summary := some (String.mk (List.replicate 10 'c')),
    examples := ["example 1", "example 2"],
    case_studies := [],
    practice_exercises := [],
    visual_suggestions := [],
    lab_instructions := none }

lemma validate_content_score (s : CourseState) (content : List ContentLesson)
    (hc : s.course_content = some content) (hne : content ≠ []) :
    (validate_content s).quality_score
      = (contentScan content).total_score / (content.length : ℚ) := by
  have hemp : content.isEmpty = false := by
    cases content with
    | nil => exact absurd rfl hne
    | cons a t => rfl
  have hlen : 0 < content.length := List.length_pos.mpr hne
  unfold validate_content
  rw [hc]
  have hcp : (!(contentPresent (some content))) = false := by
    simp [contentPresent, hemp]
  simp only [hcp, Bool.false_eq_true, if_false, Option.getD_some]
  rw [if_pos hlen]
  split <;> rfl

/-- Claim C6: for every non-empty `course_content`, the content quality score
is the exact mean of the per-lesson scores, where a lesson scores 0.33 per
required field among introduction / main content / summary that exceeds 50
characters, plus 0.1 for present examples and 0.1 for present practice
exercises; the example lesson of the claim (60-char introduction, 20-char
main content, 10-char summary, 2 examples, no exercises) scores exactly
0.43. -/
theorem claim6_content_score_is_mean (s : CourseState) (content : List ContentLesson)
    (hc : s.course_content = some content) (hne : content ≠ []) :
    (validate_content s).quality_score =
      (content.map fun lesson =>
        (if (lesson.introduction.getD "").length > 50 then (33/100 : ℚ) else 0)
        + (if (lesson.main_content.getD "").length > 50 then 33/100 else 0)
        + (if (lesson.summary.getD "").length > 50 then 33/100 else 0)
        + (if !lesson.examples.isEmpty then 1/10 else 0)
        + (if !lesson.practice_exercises.isEmpty then 1/10 else 0)).sum
      / (content.length : ℚ)
    ∧ (contentLessonEval exampleLesson).1 = 43/100 := by
  constructor
  · rw [validate_content_score s content hc hne, contentScan_total]
    simp only [contentLessonEval_score]
  · rw [contentLessonEval_score]
    have h1 : (50 < ((exampleLesson.introduction.getD "").length)) := by decide
    have h2 : ¬ (50 < ((exampleLesson.main_content.getD "").length)) := by decide
    have h3 : ¬ (50 < ((exampleLesson.summary.getD "").length)) := by decide
    have h4 : (!exampleLesson.examples.isEmpty) = true := by decide
    have h5 : (!exampleLesson.practice_exercises.isEmpty) = false := by decide
    rw [if_pos h1, if_neg h2, if_neg h3, if_pos h4, if_neg (by simp [h5])]
    norm_num

/-- Witness for claim C6 on a one-lesson content artifact. -/
theorem claim6_witness :
    (validate_content { baseState with course_content := some [exampleLesson] }).quality_score =
      (([exampleLesson] : List ContentLesson).map fun lesson =>
        (if (lesson.introduction.getD "").length > 50 then (33/100 : ℚ) else 0)
        + (if (lesson.main_content.getD "").length > 50 then 33/100 else 0)
        + (if (lesson.summary.getD "").length > 50 then 33/100 else 0)
        + (if !lesson.examples.isEmpty then 1/10 else 0)
        + (if !lesson.practice_exercises.isEmpty then 1/10 else 0)).sum
      / (([exampleLesson] : List ContentLesson).length : ℚ)
    ∧ (contentLessonEval exampleLesson).1 = 43/100 :=
  claim6_content_score_is_mean { baseState with course_content := some [exampleLesson] }
    [exampleLesson] rfl (by decide)

lemma validQ_cond (o : Option String) :
    (truthyStr o && decide ((o.getD "").length > 20)) = decide ((o.getD "").length > 20) := by
  cases o with
  | none => simp [truthyStr]
  | some t =>
      by_cases ht : t = ""
      · subst ht
        simp [truthyStr]
      · simp [truthyStr, ht]

lemma questionScan_score (l : List QuizQuestion) :
    (questionScan l).2.2 = (l.map fun question =>
      (if (question.question.getD "").length > 20 then (1/10 : ℚ) else 0)
      + (if truthyStr question.correct_answer then 1/10 else 0)
      + (if truthyStr question.explanation then 1/20 else 0)).sum := by
  induction l with
  | nil => simp [questionScan]
  | cons q t ih =>
      simp only [questionScan, validQ_cond, List.map_cons, List.sum_cons, ih]
      by_cases h : (q.question.getD "").length > 20
      · simp [h]
      · simp [h]

/-- The per-quiz score as the specification words it: the sum over the quiz
questions of (+0.1 long question text, +0.1 correct answer present, +0.05
explanation present), normalized by the question count and clamped to 1.0. -/
def specPerQuizScore (quiz : Quiz) : ℚ :=
  min (((quiz.questions.map fun question =>
      (if (question.question.getD "").length > 20 then (1/10 : ℚ) else 0)
      + (if truthyStr question.correct_answer then 1/10 else 0)
      + (if truthyStr question.explanation then 1/20 else 0)).sum)
    / (quiz.questions.length : ℚ)) 1

lemma quizScan_results (l : List Quiz) (h : ∀ q ∈ l, q.questions ≠ []) :
    (quizScan l).quiz_scores = l.map (fun q => (q.quiz_id.getD "unknown", specPerQuizScore q))
    ∧ (quizScan l).flagged_quizzes
      = (l.filter fun q => decide (specPerQuizScore q < 8/10)).map
          fun q => q.quiz_id.getD "unknown" := by
  induction l with
  | nil => simp [quizScan]
  | cons q t ih =>
      have hq : q.questions ≠ [] := h q (List.mem_cons_self q t)
      have hqe : q.questions.isEmpty = false := by
        cases hqq : q.questions with
        | nil => exact absurd hqq hq
        | cons a b => rfl
      have ht : ∀ x ∈ t, x.questions ≠ [] := fun x hx => h x (List.mem_cons_of_mem q hx)
      obtain ⟨ih1, ih2⟩ := ih ht
      have hscore : min ((questionScan q.questions).2.2 / (q.questions.length : ℚ)) 1
          = specPerQuizScore q := by
        rw [questionScan_score]
        rfl
      constructor
      · simp only [quizScan, hqe, Bool.false_eq_true, if_false, ih1, hscore, List.map_cons]
      · simp only [quizScan, hqe, Bool.false_eq_true, if_false, ih2, hscore, List.filter_cons]
        by_cases hf : specPerQuizScore q < 8/10
        · simp [hf]
        · simp [hf]

/-- Claim C8: for every quiz set in which every quiz has at least one
question, the validator records for each quiz the per-quiz score defined as
the per-question sum (+0.1 question text longer than 20 characters, +0.1
correct answer present, +0.05 explanation present) normalized by the
question count and clamped to 1.0, and `flagged_quizzes` contains exactly
the quizzes whose normalized score is below 0.8. -/
theorem claim8_quiz_flagging (s : CourseState) (qs : List Quiz)
    (hq : s.quizzes = some qs) (hne : qs ≠ []) (hall : ∀ q ∈ qs, q.questions ≠ []) :
    (validate_quizzes s).quiz_scores
      = qs.map (fun q => (q.quiz_id.getD "unknown", specPerQuizScore q))
    ∧ (validate_quizzes s).flagged_quizzes
      = (qs.filter fun q => decide (specPerQuizScore q < 8/10)).map
          fun q => q.quiz_id.getD "unknown" := by
  have hemp : qs.isEmpty = false := by
    cases qs with
    | nil => exact absurd rfl hne
    | cons a t => rfl
  have hqp : (!(quizzesPresent (some qs))) = false := by
    simp [quizzesPresent, hemp]
  obtain ⟨h1, h2⟩ := quizScan_results qs hall
  constructor
  · unfold validate_quizzes
    rw [hq]
    simp only [hqp, Bool.false_eq_true, if_false, Option.getD_some]
    rw [apply_ite QuizValidation.quiz_scores]
    dsimp only
    rw [ite_self]
    exact h1
  · unfold validate_quizzes
    rw [hq]
    simp only [hqp, Bool.false_eq_true, if_false, Option.getD_some]
    rw [apply_ite QuizValidation.flagged_quizzes]
    dsimp only
    rw [ite_self]
    exact h2

/-- A concrete quiz with one well-formed question. -/
def sampleQuiz : Quiz :=
  { quiz_id := some "graded_quiz_1_1",
    module_id := 1,
    quiz_type := "graded",
    questions := [{ question := some "What is the capital city of France today",
                    correct_answer := some "Paris",
                    explanation := some "Paris is the capital",
                    learning_objective := some "geography" }] }

/-- Witness for claim C8 on a one-quiz artifact. -/
theorem claim8_witness :
    (validate_quizzes { baseState with quizzes := some [sampleQuiz] }).quiz_scores
      = ([sampleQuiz] : List Quiz).map
          (fun q => (q.quiz_id.getD "unknown", specPerQuizScore q))
    ∧ (validate_quizzes { baseState with quizzes := some [sampleQuiz] }).flagged_quizzes
      = (([sampleQuiz] : List Quiz).filter fun q => decide (specPerQuizScore q < 8/10)).map
          fun q => q.quiz_id.getD "unknown" :=
  claim8_quiz_flagging { baseState with quizzes := some [sampleQuiz] } [sampleQuiz] rfl
    (by decide) (by decide)

/-- All learning objectives referenced by questions across a quiz list, in
question order (objectives that are missing or empty strings are not
referenced, matching the truthiness guard before `set.add`). -/
def referencedObjectives (qs : List Quiz) : List String :=
  (qs.flatMap Quiz.questions).filterMap fun question =>
    match question.learning_objective with
    | some o => if o == "" then none else some o
    | none => none

lemma questionScan_objs (l : List QuizQuestion) :
    (questionScan l).2.1 = l.filterMap fun question =>
      match question.learning_objective with
      | some o => if o == "" then none else some o
      | none => none := by
  induction l with
  | nil => simp [questionScan]
  | cons q t ih =>
      simp only [questionScan, List.filterMap_cons]
      cases hobj : q.learning_objective with
      | none => simpa using ih
      | some o =>
          by_cases ho : o == ""
          · simp [ho, ih]
          · simp [ho, ih]

lemma quizScan_objs (l : List Quiz) :
    (quizScan l).objectives_covered = referencedObjectives l := by
  induction l with
  | nil => simp [quizScan, referencedObjectives]
  | cons q t ih =>
      unfold referencedObjectives at ih ⊢
      by_cases hq : q.questions.isEmpty
      · have hqnil : q.questions = [] := by
          cases hqn : q.questions with
          | nil => rfl
          | cons a b => rw [hqn] at hq; exact absurd hq (by simp)
        simp [quizScan, hq, hqnil, ih]
      · have hqe : q.questions.isEmpty = false := by
          cases h : q.questions.isEmpty with
          | false => rfl
          | true => exact absurd h hq
        simp only [quizScan, hqe, Bool.false_eq_true, if_false, questionScan_objs,
          List.flatMap_cons, List.filterMap_append, ih]

lemma setInsert_nodup (s : List String) (x : String) (h : s.Nodup) :
    (setInsert s x).Nodup := by
  unfold setInsert
  by_cases hx : x ∈ s
  · simpa [hx] using h
  · simp only [hx, if_false]
    rw [List.nodup_append]
    exact ⟨h, List.nodup_singleton x, by simpa using hx⟩

lemma setInsert_toFinset (s : List String) (x : String) :
    (setInsert s x).toFinset = insert x s.toFinset := by
  unfold setInsert
  by_cases hx : x ∈ s
  · rw [if_pos hx]
    exact (Finset.insert_eq_self.mpr (List.mem_toFinset.mpr hx)).symm
  · rw [if_neg hx, List.toFinset_append]
    rw [Finset.union_comm]
    simp [Finset.insert_eq]

lemma foldl_setInsert (l : List String) : ∀ acc : List String, acc.Nodup →
    (l.foldl setInsert acc).Nodup
    ∧ (l.foldl setInsert acc).toFinset = acc.toFinset ∪ l.toFinset := by
  induction l with
  | nil =>
      intro acc hacc
      simpa using hacc
  | cons a t ih =>
      intro acc hacc
      obtain ⟨hn, hf⟩ := ih (setInsert acc a) (setInsert_nodup acc a hacc)
      refine ⟨hn, ?_⟩
      rw [List.foldl_cons] at *
      rw [hf, setInsert_toFinset, List.toFinset_cons, Finset.insert_union,
        Finset.union_insert]

lemma distinctFold_length (l : List String) :
    (distinctFold l).length = l.toFinset.card := by
  obtain ⟨hn, hf⟩ := foldl_setInsert l [] (by simp)
  unfold distinctFold
  rw [← List.toFinset_card_of_nodup hn, hf]
  simp

/-- Workflow state at the quiz validation checkpoint with a quiz present but
no research findings recorded at all. -/
def noResearchQuizState : CourseState :=
  { baseState with quizzes := some [sampleQuiz] }

/-- Claim C9 counterexample: with quizzes present but `research_findings`
missing entirely (hence no learning objectives recorded), the computed
`objective_coverage` is 0.0, not the claimed 0.5. -/
theorem claim9_counterexample :
    (validate_quizzes noResearchQuizState).objective_coverage = 0
    ∧ noResearchQuizState.research_findings = none
    ∧ ((0 : ℚ) ≠ 1/2) := by
  refine ⟨?_, rfl, by norm_num⟩
  unfold validate_quizzes
  have hqp : (!(quizzesPresent noResearchQuizState.quizzes)) = false := by
    simp [quizzesPresent, noResearchQuizState, baseState]
  simp only [hqp, Bool.false_eq_true, if_false]
  rw [apply_ite QuizValidation.objective_coverage]
  dsimp only
  rw [ite_self]
  rfl

/-- Claim C9 (amended): when research findings are present,
`objective_coverage` equals the number of distinct learning objectives
referenced by questions divided by the total number of recorded learning
objectives, or 0.5 when the findings record an empty objective list; when
research findings are absent entirely, the coverage stays at its 0.0
initial value (not 0.5); and the quiz router passes if and only if
`quality_score` is at least 0.8 and `objective_coverage` is at least 0.8. -/
theorem claim9_amended_objective_coverage (s : CourseState) (qs : List Quiz)
    (hq : s.quizzes = some qs) (hne : qs ≠ []) :
    (∀ rf, s.research_findings = some rf →
      (validate_quizzes s).objective_coverage =
        if rf.learning_objectives.length = 0 then 1/2
        else ((referencedObjectives qs).toFinset.card : ℚ)
          / (rf.learning_objectives.length : ℚ))
    ∧ (s.research_findings = none → (validate_quizzes s).objective_coverage = 0)
    ∧ (route_after_quiz_validation (update_validation_results_quizzes s) = "pass"
        ↔ ((validate_quizzes s).quality_score ≥ 8/10
            ∧ (validate_quizzes s).objective_coverage ≥ 8/10)) := by
  have hemp : qs.isEmpty = false := by
    cases qs with
    | nil => exact absurd rfl hne
    | cons a t => rfl
  have hqp : (!(quizzesPresent (some qs))) = false := by
    simp [quizzesPresent, hemp]
  have hcov : ∀ rf, s.research_findings = some rf →
      (validate_quizzes s).objective_coverage =
        if rf.learning_objectives.length = 0 then 1/2
        else ((referencedObjectives qs).toFinset.card : ℚ)
          / (rf.learning_objectives.length : ℚ) := by
    intro rf hrf
    unfold validate_quizzes
    rw [hq]
    simp only [hqp, Bool.false_eq_true, if_false, Option.getD_some]
    rw [apply_ite QuizValidation.objective_coverage]
    dsimp only
    rw [ite_self, hrf]
    by_cases hz : rf.learning_objectives.length = 0
    · simp [hz]
    · have hpos : 0 < rf.learning_objectives.length := Nat.pos_of_ne_zero hz
      simp only [hpos, if_pos, if_neg hz, quizScan_objs, distinctFold_length]
  have hnone : s.research_findings = none → (validate_quizzes s).objective_coverage = 0 := by
    intro hrf
    unfold validate_quizzes
    rw [hq]
    simp only [hqp, Bool.false_eq_true, if_false, Option.getD_some]
    rw [apply_ite QuizValidation.objective_coverage]
    dsimp only
    rw [ite_self, hrf]
  refine ⟨hcov, hnone, ?_⟩
  have hlook : (update_validation_results_quizzes s).validation_results.quizzes
      = some (validate_quizzes s) := rfl
  unfold route_after_quiz_validation
  rw [hlook]
  by_cases hcond : ((some (validate_quizzes s)).map QuizValidation.quality_score).getD 0 ≥ 8/10
      ∧ (((some (validate_quizzes s)).map QuizValidation.objective_coverage).getD 0 ≥ 8/10)
  · rw [if_pos hcond]
    have h1 : (validate_quizzes s).quality_score ≥ 8/10 := hcond.1
    have h2 : (validate_quizzes s).objective_coverage ≥ 8/10 := hcond.2
    simp [h1, h2]
  · rw [if_neg hcond]
    constructor
    · intro hfalse
      exact absurd hfalse (by decide)
    · intro hgood
      exact absurd (⟨hgood.1, hgood.2⟩ :
        (((some (validate_quizzes s)).map QuizValidation.quality_score).getD 0 ≥ 8/10
          ∧ ((some (validate_quizzes s)).map QuizValidation.objective_coverage).getD 0 ≥ 8/10))
        hcond

/-- A research findings artifact with two learning objectives. -/
def sampleResearch : ResearchFindings :=
  { learning_objectives := ["geography", "history"] }

/-- Workflow state at the quiz validation checkpoint with both a quiz and
research findings present. -/
def quizValidationState : CourseState :=
  { baseState with
    quizzes := some [sampleQuiz],
    research_findings := some sampleResearch }

/-- Witness for the amended claim C9. -/
theorem claim9_witness :
    (∀ rf, quizValidationState.research_findings = some rf →
      (validate_quizzes quizValidationState).objective_coverage =
        if rf.learning_objectives.length = 0 then 1/2
        else ((referencedObjectives [sampleQuiz]).toFinset.card : ℚ)
          / (rf.learning_objectives.length : ℚ))
    ∧ (quizValidationState.research_findings = none →
        (validate_quizzes quizValidationState).objective_coverage = 0)
    ∧ (route_after_quiz_validation (update_validation_results_quizzes quizValidationState)
          = "pass"
        ↔ ((validate_quizzes quizValidationState).quality_score ≥ 8/10
            ∧ (validate_quizzes quizValidationState).objective_coverage ≥ 8/10)) :=
  claim9_amended_objective_coverage quizValidationState [sampleQuiz] rfl (by decide)

lemma route_structure_always_review (s : CourseState) :
    route_after_structure_validation (update_validation_results_structure s) = "review" := by
  simp only [route_after_structure_validation]
  rw [update_structure_validation_lookup]
  apply if_neg
  rintro ⟨hq, -⟩
  have hq2 : (validate_module_structure s).quality_score ≥ 7/10 := hq
  have := validate_module_structure_score_le s
  linarith

/-- A state in which the structure checkpoint has just been rejected with a
suggestion, about to re-enter `module_structure_agent` for regeneration. -/
def rejectedStructureState : CourseState :=
  { baseState with
    research_findings := some sampleResearch,
    approval_status := { structureStatus := some false, contentStatus := none,
                         quizzesStatus := none },
    human_feedback := { structureFeedback := "needs work", contentFeedback := "",
                        quizzesFeedback := "",
                        structure_suggestions := ["add more examples"],
                        content_suggestions := [], quiz_suggestions := [] } }

/-- Claim C4 counterexample: after a rejection-triggered regeneration the
structure agent resets `approval_status["structure"]` to `None`; the next
validation still routes to review, and the re-entered review node, seeing
`None`, collects interactive feedback again (the boolean is `true`), so the
checkpoint does re-suspend and re-ask after a successful regeneration. -/
theorem claim4_counterexample :
    (module_structure_agent rejectedStructureState none).approval_status.structureStatus = none
    ∧ route_after_structure_validation (update_validation_results_structure
        (module_structure_agent rejectedStructureState none)) = "review"
    ∧ (human_review_structure
        (update_validation_results_structure (module_structure_agent rejectedStructureState none))
        { approval_status := some true, feedback := "ok",
          specific_issues := [], suggestions := [] }).2 = true :=
  ⟨rfl, route_structure_always_review _, rfl⟩

/-- Claim C4 (amended): the review node passes through unchanged, without
re-asking, exactly while `approvalStatus[checkpoint]` is still decided (true
or false) at entry; but each agent resets `approvalStatus[checkpoint]` to
`None` upon a successful regeneration (the structure and quiz agents at the
end of the pass, the content agent at its start), so on re-entry after a
successful regeneration the review node re-suspends and asks for a fresh
decision on the regenerated artifact rather than deferring silently. -/
theorem claim4_amended_review_reentry (s : CourseState) (d : ReviewDecision)
    (b : Bool) (rf : ResearchFindings) (lm : Option ModuleStructure)
    (bo : Nat → BatchOutcome) (qo : Nat → Option Quiz)
    (ms : ModuleStructure) (content : List ContentLesson) :
    (s.approval_status.structureStatus = some b → human_review_structure s d = (s, false))
    ∧ (s.research_findings = some rf → s.approval_status.structureStatus = some false →
        (module_structure_agent s lm).approval_status.structureStatus = none
        ∧ (human_review_structure
            (update_validation_results_structure (module_structure_agent s lm)) d).2 = true
        ∧ route_after_structure_validation
            (update_validation_results_structure (module_structure_agent s lm)) = "review")
    ∧ (s.module_structure = some ms → s.course_content = some content → content ≠ [] →
        s.approval_status.quizzesStatus = some false →
        (quiz_curator_agent s qo).approval_status.quizzesStatus = none)
    ∧ (s.module_structure = some ms → s.approval_status.contentStatus = some false →
        (course_content_agent s bo).approval_status.contentStatus = none) := by
  refine ⟨?_, ?_, ?_, ?_⟩
  · intro h
    unfold human_review_structure
    have hget : s.approval_status.get .moduleStructure = some b := h
    rw [hget]
  · intro hrf hstat
    have hreg : (s.approval_status.get .moduleStructure == some false) = true := by
      have hget : s.approval_status.get .moduleStructure = some false := hstat
      rw [hget]
      rfl
    have hnone : (module_structure_agent s lm).approval_status.structureStatus = none := by
      unfold module_structure_agent
      rw [hrf]
      simp only [hreg, Bool.true_or, if_true]
      rfl
    refine ⟨hnone, ?_, route_structure_always_review _⟩
    have hget2 : (update_validation_results_structure
        (module_structure_agent s lm)).approval_status.get .moduleStructure = none := hnone
    unfold human_review_structure
    rw [hget2]
  · intro hms hcc hcne hstat
    have hemp : content.isEmpty = false := by
      cases content with
      | nil => exact absurd rfl hcne
      | cons a t => rfl
    have hcond : (!s.module_structure.isSome || !(contentPresent s.course_content)) = false := by
      rw [hms, hcc]
      simp [contentPresent, hemp]
    have hreg : (s.approval_status.get .courseQuizzes == some false) = true := by
      have hget : s.approval_status.get .courseQuizzes = some false := hstat
      rw [hget]
      rfl
    unfold quiz_curator_agent
    rw [hcond]
    simp only [Bool.false_eq_true, if_false, hreg, Bool.true_or, if_true]
    rfl
  · intro hms hstat
    have hreg : (s.approval_status.get .courseContent == some false) = true := by
      have hget : s.approval_status.get .courseContent = some false := hstat
      rw [hget]
      rfl
    unfold course_content_agent
    rw [hms]
    simp only [hreg, Bool.true_or, if_true]
    rfl

/-- A state whose structure checkpoint has already been approved. -/
def approvedStructureState : CourseState :=
  { baseState with
    approval_status := { structureStatus := some true, contentStatus := none,
                         quizzesStatus := none } }

/-- A concrete rejection decision. -/
def rejectDecision : ReviewDecision :=
  { approval_status := some false, feedback := "f", specific_issues := [], suggestions := [] }

/-- Witness for the amended claim C4 at the rejected-structure state. -/
theorem claim4_witness :
    (human_review_structure approvedStructureState rejectDecision
      = (approvedStructureState, false))
    ∧ ((module_structure_agent rejectedStructureState (some fullStructure)
          ).approval_status.structureStatus = none
        ∧ (human_review_structure
            (update_validation_results_structure
              (module_structure_agent rejectedStructureState (some fullStructure)))
            rejectDecision).2 = true
        ∧ route_after_structure_validation
            (update_validation_results_structure
              (module_structure_agent rejectedStructureState (some fullStructure))) = "review") :=
  ⟨(claim4_amended_review_reentry approvedStructureState rejectDecision
      true sampleResearch (some fullStructure) (fun _ => BatchOutcome.parsed [])
      (fun _ => none) fullStructure []).1 rfl,
   (claim4_amended_review_reentry rejectedStructureState rejectDecision
      true sampleResearch (some fullStructure) (fun _ => BatchOutcome.parsed [])
      (fun _ => none) fullStructure []).2.1 rfl rfl⟩

/-- Claim C7 counterexample: invoking the content stage without a module
structure appends the error message but leaves `current_step` at its previous
value ("xdp_created" here), rather than marking it with a `*_failed` label. -/
theorem claim7_counterexample :
    (course_content_agent { baseState with current_step := "xdp_created" }
        (fun _ => BatchOutcome.parsed [])).current_step = "xdp_created"
    ∧ (course_content_agent { baseState with current_step := "xdp_created" }
        (fun _ => BatchOutcome.parsed [])).errors = ["Module structure not available"]
    ∧ ("xdp_created" : String) ≠ "course_content_failed" :=
  ⟨rfl, rfl, by decide⟩

/-- Claim C7 (amended): a stage invoked with a missing precondition appends a
message to `errors[]` and returns early with everything else, including
`current_step`, unchanged; the `*_failed` labels are set only by the
exception handlers of the stages, not by the missing-precondition guards. -/
theorem claim7_amended_missing_precondition (s : CourseState) (bo : Nat → BatchOutcome)
    (qo : Nat → Option Quiz) (lm : Option ModuleStructure) :
    (s.module_structure = none →
      course_content_agent s bo
          = { s with errors := s.errors ++ ["Module structure not available"] }
        ∧ (course_content_agent s bo).current_step = s.current_step)
    ∧ ((s.module_structure = none ∨ contentPresent s.course_content = false) →
        quiz_curator_agent s qo
            = { s with
                errors := s.errors ++ ["Module structure or course content not available"] }
          ∧ (quiz_curator_agent s qo).current_step = s.current_step)
    ∧ (s.research_findings = none →
        module_structure_agent s lm
            = { s with errors := s.errors ++ ["Research findings not available"] }
          ∧ (module_structure_agent s lm).current_step = s.current_step) := by
  refine ⟨?_, ?_, ?_⟩
  · intro h
    have heq : course_content_agent s bo
        = { s with errors := s.errors ++ ["Module structure not available"] } := by
      unfold course_content_agent
      rw [h]
    exact ⟨heq, by rw [heq]⟩
  · intro h
    have hcond : (!s.module_structure.isSome || !(contentPresent s.course_content)) = true := by
      rcases h with h | h
      · rw [h]
        rfl
      · rw [h]
        simp
    have heq : quiz_curator_agent s qo
        = { s with
            errors := s.errors ++ ["Module structure or course content not available"] } := by
      unfold quiz_curator_agent
      rw [hcond]
      rfl
    exact ⟨heq, by rw [heq]⟩
  · intro h
    have heq : module_structure_agent s lm
        = { s with errors := s.errors ++ ["Research findings not available"] } := by
      unfold module_structure_agent
      rw [h]
    exact ⟨heq, by rw [heq]⟩

/-- Witness for the amended claim C7: `baseState` has no module structure, an
empty content list and no research findings. -/
theorem claim7_witness :
    (course_content_agent baseState (fun _ => BatchOutcome.parsed [])
        = { baseState with errors := baseState.errors ++ ["Module structure not available"] }
      ∧ (course_content_agent baseState (fun _ => BatchOutcome.parsed [])).current_step
          = baseState.current_step)
    ∧ (quiz_curator_agent baseState (fun _ => none)
        = { baseState with
            errors := baseState.errors ++ ["Module structure or course content not available"] }
      ∧ (quiz_curator_agent baseState (fun _ => none)).current_step = baseState.current_step)
    ∧ (module_structure_agent baseState none
        = { baseState with errors := baseState.errors ++ ["Research findings not available"] }
      ∧ (module_structure_agent baseState none).current_step = baseState.current_step) := by
  have h := claim7_amended_missing_precondition baseState
    (fun _ => BatchOutcome.parsed []) (fun _ => none) none
  exact ⟨h.1 rfl, h.2.1 (Or.inl rfl), h.2.2 rfl⟩

lemma contentBatchFallback_length (needsLab : Bool) (bn : Nat) (batch : List FlatLesson) :
    (contentBatchFallback needsLab bn batch).length = batch.length := by
  simp [contentBatchFallback, List.enum_length]

lemma contentBatchFallback_wellformed (needsLab : Bool) (bn : Nat) (batch : List FlatLesson) :
    ∀ l ∈ contentBatchFallback needsLab bn batch,
      l.introduction.isSome ∧ l.main_content.isSome ∧ l.summary.isSome
      ∧ l.examples ≠ [] ∧ l.practice_exercises ≠ [] := by
  intro l hl
  simp only [contentBatchFallback, List.mem_map] at hl
  obtain ⟨p, hp, rfl⟩ := hl
  simp

lemma length_filterMap_isSome {α β : Type} (f : α → Option β) (l : List α) :
    (l.filterMap f).length = l.countP fun a => (f a).isSome := by
  induction l with
  | nil => rfl
  | cons a t ih =>
      cases h : f a with
      | none => simp [List.filterMap_cons, h, List.countP_cons, ih]
      | some b => simp [List.filterMap_cons, h, List.countP_cons, ih]

/-- A state ready for the quiz stage: structure and content are present, and
the single module plans exactly one graded quiz, so one quiz task is
submitted. -/
def quizStageState : CourseState :=
  { baseState with
    module_structure := some fullStructure,
    course_content := some [exampleLesson] }

/-- Claim C3 counterexample: when the single planned quiz task fails (or
returns empty output), the quiz stage stores an empty quiz list; no fallback
quiz is synthesized for it, so the quiz list does not contain an entry for
every planned task. -/
theorem claim3_counterexample :
    (quiz_curator_agent quizStageState (fun _ => none)).quizzes = some []
    ∧ (quizTasksFor quizStageState fullStructure.modules).length = 1
    ∧ (quiz_curator_agent quizStageState (fun _ => none)).current_step = "quizzes_created" :=
  ⟨rfl, rfl, rfl⟩

/-- Claim C3 (amended): the content stage substitutes a deterministically
synthesized fallback for every batch that fails or parses to empty output —
each such batch contributes exactly one well-formed entry per lesson of the
batch, the other batches are unaffected, and the stage finishes with its
normal success step (no exception escapes). The quiz stage, by contrast,
substitutes no fallback: a failed or empty quiz task contributes nothing,
and the stored quiz list has exactly one entry per successful task. -/
theorem claim3_amended_fallback_completeness (s : CourseState) (ms : ModuleStructure)
    (bo : Nat → BatchOutcome) (qo : Nat → Option Quiz)
    (hms : s.module_structure = some ms) :
    (course_content_agent s bo).current_step = "course_content_created"
    ∧ (∃ content, (course_content_agent s bo).course_content = some content
        ∧ content.length = ((List.toChunks 4 (flatLessonList ms)).enum.map fun p =>
            (batchContribution s.needs_lab_module p.2 (p.1 + 1) (bo (p.1 + 1))).length).sum
        ∧ (∀ b batch e, (List.toChunks 4 (flatLessonList ms))[b]? = some batch →
            (bo (b + 1) = BatchOutcome.exn e ∨ bo (b + 1) = BatchOutcome.parsed []) →
            batchContribution s.needs_lab_module batch (b + 1) (bo (b + 1))
                = contentBatchFallback s.needs_lab_module (b + 1) batch
              ∧ (contentBatchFallback s.needs_lab_module (b + 1) batch).length = batch.length
              ∧ ∀ l ∈ contentBatchFallback s.needs_lab_module (b + 1) batch,
                  l ∈ content
                  ∧ l.introduction.isSome ∧ l.main_content.isSome ∧ l.summary.isSome
                  ∧ l.examples ≠ [] ∧ l.practice_exercises ≠ []))
    ∧ (contentPresent s.course_content = true →
        ∃ qs, (quiz_curator_agent s qo).quizzes = some qs
          ∧ qs.length = (quizTasksFor s ms.modules).enum.countP fun p => (qo p.1).isSome) := by
  have hstep : (course_content_agent s bo).current_step = "course_content_created" := by
    unfold course_content_agent
    rw [hms]
  have hcontent : (course_content_agent s bo).course_content
      = some (List.insertionSort contentOrder
          ((List.toChunks 4 (flatLessonList ms)).enum.flatMap fun p =>
            batchContribution s.needs_lab_module p.2 (p.1 + 1) (bo (p.1 + 1)))) := by
    unfold course_content_agent
    rw [hms]
  refine ⟨hstep, ?_, ?_⟩
  · refine ⟨List.insertionSort contentOrder
        ((List.toChunks 4 (flatLessonList ms)).enum.flatMap fun p =>
          batchContribution s.needs_lab_module p.2 (p.1 + 1) (bo (p.1 + 1))), hcontent, ?_, ?_⟩
    · rw [List.length_insertionSort, List.length_flatMap]
      rfl
    · intro b batch e hget hfail
      have hfb : batchContribution s.needs_lab_module batch (b + 1) (bo (b + 1))
          = contentBatchFallback s.needs_lab_module (b + 1) batch := by
        rcases hfail with h | h <;> rw [h] <;> rfl
      refine ⟨hfb, contentBatchFallback_length _ _ _, ?_⟩
      intro l hl
      have henum : (b, batch) ∈ (List.toChunks 4 (flatLessonList ms)).enum := by
        apply List.getElem?_mem
        rw [List.getElem?_enum, hget]
        rfl
      have hcollected : l ∈ (List.toChunks 4 (flatLessonList ms)).enum.flatMap fun p =>
          batchContribution s.needs_lab_module p.2 (p.1 + 1) (bo (p.1 + 1)) := by
        refine List.mem_flatMap.mpr ⟨(b, batch), henum, ?_⟩
        dsimp only
        rw [hfb]
        exact hl
      have hsorted := (List.perm_insertionSort contentOrder
        ((List.toChunks 4 (flatLessonList ms)).enum.flatMap fun p =>
          batchContribution s.needs_lab_module p.2 (p.1 + 1) (bo (p.1 + 1)))).mem_iff.mpr
        hcollected
      exact ⟨hsorted, contentBatchFallback_wellformed _ _ _ l hl⟩
  · intro hcp
    have hcond : (!s.module_structure.isSome || !(contentPresent s.course_content)) = false := by
      rw [hms, hcp]
      rfl
    have hmods : (s.module_structure.getD { modules := [] }).modules = ms.modules := by
      rw [hms]
      rfl
    have hq : (quiz_curator_agent s qo).quizzes
        = some (List.insertionSort quizOrder
            ((quizTasksFor s ms.modules).enum.filterMap fun p =>
              (qo p.1).map (finalizeQuiz p.2))) := by
      unfold quiz_curator_agent
      rw [hcond]
      simp only [Bool.false_eq_true, if_false, hmods]
      rw [apply_ite CourseState.quizzes]
      dsimp only
      rw [ite_self]
    refine ⟨_, hq, ?_⟩
    rw [List.length_insertionSort, length_filterMap_isSome]
    apply List.countP_congr
    intro p hp
    simp [Option.isSome_map]

/-- Collaborator outcomes in which every batch raises. -/
def failingBatchOutcomes : Nat → BatchOutcome := fun _ => BatchOutcome.exn "boom"

/-- Collaborator outcomes in which every quiz task succeeds. -/
def succeedingQuizOutcomes : Nat → Option Quiz := fun _ => some sampleQuiz

/-- Witness for the amended claim C3 at the concrete quiz-stage state. -/
theorem claim3_witness :
    (course_content_agent quizStageState failingBatchOutcomes).current_step
        = "course_content_created"
    ∧ (∃ content,
        (course_content_agent quizStageState failingBatchOutcomes).course_content = some content
        ∧ content.length = ((List.toChunks 4 (flatLessonList fullStructure)).enum.map fun p =>
            (batchContribution quizStageState.needs_lab_module p.2 (p.1 + 1)
              (failingBatchOutcomes (p.1 + 1))).length).sum
        ∧ (∀ b batch e, (List.toChunks 4 (flatLessonList fullStructure))[b]? = some batch →
            (failingBatchOutcomes (b + 1) = BatchOutcome.exn e
              ∨ failingBatchOutcomes (b + 1) = BatchOutcome.parsed []) →
            batchContribution quizStageState.needs_lab_module batch (b + 1)
                (failingBatchOutcomes (b + 1))
                = contentBatchFallback quizStageState.needs_lab_module (b + 1) batch
              ∧ (contentBatchFallback quizStageState.needs_lab_module (b + 1) batch).length
                  = batch.length
              ∧ ∀ l ∈ contentBatchFallback quizStageState.needs_lab_module (b + 1) batch,
                  l ∈ content
                  ∧ l.introduction.isSome ∧ l.main_content.isSome ∧ l.summary.isSome
                  ∧ l.examples ≠ [] ∧ l.practice_exercises ≠ []))
    ∧ (contentPresent quizStageState.course_content = true →
        ∃ qs, (quiz_curator_agent quizStageState succeedingQuizOutcomes).quizzes = some qs
          ∧ qs.length = (quizTasksFor quizStageState fullStructure.modules).enum.countP
              fun p => (succeedingQuizOutcomes p.1).isSome) :=
  claim3_amended_fallback_completeness quizStageState fullStructure failingBatchOutcomes
    succeedingQuizOutcomes rfl
